import Mathlib

/-!
Shallow embedding of the monofásico (single-stage PIS/COFINS) audit pipeline:
the rules engine (`app/services/rules_engine.py`), the reconciliation stage
(`app/services/comparison.py`), the rate-resolution/estimation stage
(`app/services/calculator.py`), the PGDAS-D CSV importer
(`app/services/pgdas_importer.py`) and the multi-period orchestration loop
(`app/routers/uploads.py`).

Modelling conventions:
* The SQLAlchemy session/database is a record of row lists (`DB`); mutation of
  ORM objects becomes functional update of the matching row (matched by its
  integer primary key), and `commit`/`refresh` are identities on this state.
* Python `Decimal` values are embedded as `ℚ`: every Decimal arithmetic
  operation the code performs (addition, subtraction, multiplication of
  few-digit operands, and a division whose 28-significant-digit rounding
  cannot change the sign or the exact small-decimal results used here) is
  exact rational arithmetic.
* Python `float` values produced by `_parse_decimal` are embedded as the ℚ
  value of the nearest IEEE-754 binary64 number (round-to-nearest, ties to
  even), via `roundB64`; the model covers the normal range (no overflow or
  subnormals, which the ingested magnitudes never reach).
* Python exceptions are `Except String`; an ORM query `.first()` is
  `List.find?`.
* `Empresa` objects are only ever used through their primary key in the
  embedded code paths, so the functions take the `empresa_id : Nat` directly.
-/

/-- A calendar date, ordered lexicographically (as Python `datetime.date`). -/
structure Date where
  year : Nat
  month : Nat
  day : Nat
deriving DecidableEq, Repr

/-- A timestamp: a date plus a second-of-day component (Python `datetime`).
Ordered lexicographically. -/
structure DateTime where
  year : Nat
  month : Nat
  day : Nat
  tsec : Nat
deriving DecidableEq, Repr

def Date.le (a b : Date) : Bool :=
  if a.year ≠ b.year then a.year < b.year
  else if a.month ≠ b.month then a.month < b.month
  else a.day ≤ b.day

def DateTime.le (a b : DateTime) : Bool :=
  if a.year ≠ b.year then a.year < b.year
  else if a.month ≠ b.month then a.month < b.month
  else if a.day ≠ b.day then a.day < b.day
  else a.tsec ≤ b.tsec

def DateTime.lt (a b : DateTime) : Bool :=
  if a.year ≠ b.year then a.year < b.year
  else if a.month ≠ b.month then a.month < b.month
  else if a.day ≠ b.day then a.day < b.day
  else a.tsec < b.tsec

/-- Python `datetime.date()`: drop the time-of-day component. -/
def DateTime.date (a : DateTime) : Date := ⟨a.year, a.month, a.day⟩

/-- Row of table `ncm_monofasicos` (`app/models.py`, class `NCMMonofasico`). -/
structure NCMMonofasico where
  id : Nat
  ncm : String
  data_inicio_vigencia : Date
  data_fim_vigencia : Option Date
  flag_monofasico : Bool
deriving DecidableEq, Repr

/-- Row of table `itens_nota` (`app/models.py`, class `ItemNota`); only the
columns the embedded code paths read or write.  `cst_pis`/`cst_cofins` are
`Option` because the classifier guards them with `(… or "")`. -/
structure ItemNota where
  id : Nat
  nota_id : Nat
  ncm : String
  valor_total : ℚ
  cst_pis : Option String
  cst_cofins : Option String
  eh_monofasico : Bool
  eh_inconsistente : Bool
deriving DecidableEq, Repr

/-- Row of table `notas_fiscais` (`app/models.py`, class `NotaFiscal`). -/
structure NotaFiscal where
  id : Nat
  empresa_id : Nat
  data_emissao : DateTime
deriving DecidableEq, Repr

/-- Row of table `competencias_pgdas` (`app/models.py`,
class `CompetenciaPGDAS`). -/
structure CompetenciaPGDAS where
  id : Nat
  empresa_id : Nat
  ano_mes : String
  anexo : Option String
  receita_bruta_total : Option ℚ
  receita_monofasica_declarada : Option ℚ
  receita_substituicao_tributaria : Option ℚ
  receita_outras_exclusoes : Option ℚ
  receita_bruta_12m : Option ℚ
  aliquota_nominal : Option ℚ
  parcela_a_deduzir : Option ℚ
  aliquota_efetiva : Option ℚ
deriving DecidableEq, Repr

/-- Row of table `anexos_aliquotas` (`app/models.py`, class `AnexoAliquota`). -/
structure AnexoAliquota where
  id : Nat
  anexo : String
  faixa : Nat
  receita_bruta_min : ℚ
  receita_bruta_max : ℚ
  aliquota_nominal : ℚ
  parcela_a_deduzir : ℚ
  percentual_pis : ℚ
  percentual_cofins : ℚ
deriving DecidableEq, Repr

/-- Row of table `resultados_auditoria` (`app/models.py`,
class `ResultadoAuditoria`).  The three impact columns are nullable with no
default, so a freshly constructed row carries `none` there. -/
structure ResultadoAuditoria where
  id : Nat
  empresa_id : Nat
  competencia_id : Nat
  base_monofasica_xml : ℚ
  base_monofasica_pgdas : ℚ
  diferenca_base : ℚ
  pis_indev : Option ℚ
  cofins_indev : Option ℚ
  total_indev : Option ℚ
deriving DecidableEq, Repr

/-- The database state: one list per table, plus the next primary key the
session will assign on `flush` for `resultados_auditoria`. -/
structure DB where
  ncm_monofasicos : List NCMMonofasico
  notas : List NotaFiscal
  itens : List ItemNota
  competencias : List CompetenciaPGDAS
  anexos_aliquotas : List AnexoAliquota
  resultados : List ResultadoAuditoria
  next_resultado_id : Nat
deriving DecidableEq, Repr

/-- Replace the competência row with the same primary key (ORM in-place
mutation followed by `commit`). -/
def DB.replaceCompetencia (db : DB) (c : CompetenciaPGDAS) : DB :=
  { db with competencias := db.competencias.map fun x => if x.id = c.id then c else x }

/-- Replace the audit-summary row with the same primary key. -/
def DB.replaceResultado (db : DB) (r : ResultadoAuditoria) : DB :=
  { db with resultados := db.resultados.map fun x => if x.id = r.id then r else x }

/-! ## rules_engine.py -/

/-- Python `str.strip()` restricted to ASCII whitespace, which is what the CST
codes can carry. -/
def pyStrip (s : String) : String :=
  let ws : Char → Bool := fun c => c = ' ' ∨ c = '\t' ∨ c = '\n' ∨ c = '\r'
  String.mk (((s.data.dropWhile ws).reverse.dropWhile ws).reverse)

/-- `rules_engine._ncm_esta_em_vigencia`: is there an `NCMMonofasico` row for
this NCM, flagged monofásico, whose validity window contains the reference
date (`data_inicio_vigencia ≤ data_referencia` and `data_fim_vigencia` null or
`≥ data_referencia`)?  The ORM `.first()`-is-not-None test is
`(find? …).isSome`. -/
def ncm_esta_em_vigencia (db : DB) (ncm : String) (data_referencia : Date) : Bool :=
  (db.ncm_monofasicos.find? fun reg =>
    reg.ncm == ncm && reg.flag_monofasico &&
      reg.data_inicio_vigencia.le data_referencia &&
      (match reg.data_fim_vigencia with
       | none => true
       | some fim => data_referencia.le fim)).isSome

/-- `rules_engine.classificar_item`: reset both flags, then set
`eh_monofasico` when NCM is in force and a CST equals "04", or
`eh_inconsistente` when exactly one of the two indications is present.
Returns the updated item (the Python code mutates it in place). -/
def classificar_item (item : ItemNota) (ncm_monofasico : Bool) : ItemNota :=
  let cst_pis := pyStrip (item.cst_pis.getD "")
  let cst_cofins := pyStrip (item.cst_cofins.getD "")
  let possui_cst_04 : Bool := cst_pis = "04" ∨ cst_cofins = "04"
  let item := { item with eh_monofasico := false, eh_inconsistente := false }
  if ncm_monofasico ∧ possui_cst_04 then
    { item with eh_monofasico := true }
  else if ncm_monofasico ∧ ¬ possui_cst_04 then
    { item with eh_inconsistente := true }
  else if ¬ ncm_monofasico ∧ possui_cst_04 then
    { item with eh_inconsistente := true }
  else
    item

/-- Digits of a natural number, least significant first (empty for 0).
Structural recursion on a fuel argument so that the kernel can evaluate it;
`fuel = n` always suffices because `n / 10 < n` for `n ≠ 0`. -/
def natRevDigitsAux : Nat → Nat → List Char
  | 0, _ => []
  | fuel + 1, n =>
    if n = 0 then [] else Char.ofNat (48 + n % 10) :: natRevDigitsAux fuel (n / 10)

/-- Digits of a natural number, least significant first
(empty for 0; a helper for the period-token formatting below). -/
def natRevDigits (n : Nat) : List Char :=
  natRevDigitsAux n n

/-- Decimal digit characters of `n`, left-padded with zeros to `width`
(Python `f"{n:0{width}d}"`). -/
def padNum (width : Nat) (n : Nat) : List Char :=
  let ds := (natRevDigits n).reverse
  List.replicate (width - ds.length) '0' ++ ds

/-- `rules_engine.competencia_from_date` (also the `%Y-%m` strftime used by
the orchestration): format a year and month as `"AAAA-MM"`. -/
def formatAnoMes (year month : Nat) : String :=
  String.mk (padNum 4 year ++ '-' :: padNum 2 month)

/-- Split a character list at each hyphen (Python `str.split("-")`). -/
def splitOnDash : List Char → List (List Char)
  | [] => [[]]
  | c :: rest =>
    if c = '-' then [] :: splitOnDash rest
    else
      match splitOnDash rest with
      | [] => [[c]]
      | p :: ps => (c :: p) :: ps

/-- Value of a list of decimal digit characters. -/
def natOfDigits (l : List Char) : Nat :=
  l.foldl (fun acc c => acc * 10 + (c.toNat - 48)) 0

/-- Parse an `"AAAA-MM"` period token: Python
`ano, mes = map(int, ano_mes.split("-"))` succeeds exactly when the split has
two parts and both are (nonempty) digit strings. -/
def parseAnoMes (ano_mes : String) : Option (Nat × Nat) :=
  match splitOnDash ano_mes.data with
  | [a, b] =>
    if a ≠ [] ∧ b ≠ [] ∧ a.all Char.isDigit ∧ b.all Char.isDigit then
      some (natOfDigits a, natOfDigits b)
    else none
  | _ => none

/-- `rules_engine._intervalo_datas_competencia`: first day of the competência
month and first day of the following month (year rollover at month 12); fails
(Python raises) when the token does not parse. -/
def intervalo_datas_competencia (ano_mes : String) :
    Except String (DateTime × DateTime) :=
  match parseAnoMes ano_mes with
  | none => .error "ano_mes invalido"
  | some (ano, mes) =>
    let inicio : DateTime := ⟨ano, mes, 1, 0⟩
    let fim : DateTime := if mes = 12 then ⟨ano + 1, 1, 1, 0⟩ else ⟨ano, mes + 1, 1, 0⟩
    .ok (inicio, fim)

/-- The notas of an empresa issued inside `[inicio, fim)`
(the query in `classificar_itens_empresa_competencia` and in
`calcular_base_monofasica_xml`). -/
def notasNaCompetencia (db : DB) (empresa_id : Nat) (inicio fim : DateTime) :
    List NotaFiscal :=
  db.notas.filter fun n =>
    n.empresa_id == empresa_id && inicio.le n.data_emissao && n.data_emissao.lt fim

/-- `rules_engine.classificar_itens_empresa_competencia`: classify every item
of every nota of the empresa issued in the competência window, persist the
flag changes, and return the processed-item count.  Iterating the
`nota.itens` relationship is embedded as updating each item row whose
`nota_id` matches a nota in the window. -/
def classificar_itens_empresa_competencia (db : DB) (empresa_id : Nat)
    (ano_mes : String) : Except String (DB × Nat) := do
  let (data_inicio, data_fim) ← intervalo_datas_competencia ano_mes
  let notas := notasNaCompetencia db empresa_id data_inicio data_fim
  let itens2 := db.itens.map fun item =>
    match notas.find? (fun n => n.id == item.nota_id) with
    | none => item
    | some nota =>
      classificar_item item (ncm_esta_em_vigencia db item.ncm nota.data_emissao.date)
  let processados :=
    (db.itens.filter fun item => (notas.find? (fun n => n.id == item.nota_id)).isSome).length
  .ok ({ db with itens := itens2 }, processados)

/-- `rules_engine.calcular_base_monofasica_xml`: sum of `valor_total` over the
items flagged monofásico on notas of the empresa in the competência window
(`coalesce(sum, 0)` makes the empty sum 0). -/
def calcular_base_monofasica_xml (db : DB) (empresa_id : Nat) (ano_mes : String) :
    Except String ℚ := do
  let (data_inicio, data_fim) ← intervalo_datas_competencia ano_mes
  let notas := notasNaCompetencia db empresa_id data_inicio data_fim
  let itens := db.itens.filter fun item =>
    (notas.find? (fun n => n.id == item.nota_id)).isSome && item.eh_monofasico
  .ok (itens.foldl (fun acc item => acc + item.valor_total) 0)

/-! ## comparison.py -/

/-- `comparison.get_or_create_resultado_auditoria`: return the existing
summary row for (empresa, competência) or create one with the two base
columns and the difference at `Decimal(0)`; the three impact columns are not
passed, so they start at their column state `none`.  The `flush` assigns the
next primary key. -/
def get_or_create_resultado_auditoria (db : DB) (empresa_id : Nat)
    (competencia : CompetenciaPGDAS) : ResultadoAuditoria × DB :=
  match db.resultados.find? (fun r =>
      r.empresa_id == empresa_id && r.competencia_id == competencia.id) with
  | some existente => (existente, db)
  | none =>
    let novo : ResultadoAuditoria :=
      { id := db.next_resultado_id
        empresa_id := empresa_id
        competencia_id := competencia.id
        base_monofasica_xml := 0
        base_monofasica_pgdas := 0
        diferenca_base := 0
        pis_indev := none
        cofins_indev := none
        total_indev := none }
    (novo, { db with resultados := db.resultados ++ [novo],
                     next_resultado_id := db.next_resultado_id + 1 })

/-- `comparison.cruzar_competencia`: `none` (the NotFound sentinel) when the
empresa has no `CompetenciaPGDAS` row for the token; otherwise overwrite the
summary's two bases and difference and persist. -/
def cruzar_competencia (db : DB) (empresa_id : Nat) (ano_mes : String) :
    Except String (Option ResultadoAuditoria × DB) := do
  match db.competencias.find? (fun c =>
      c.empresa_id == empresa_id && c.ano_mes == ano_mes) with
  | none => .ok (none, db)
  | some competencia =>
    let base_monofasica_xml ← calcular_base_monofasica_xml db empresa_id ano_mes
    let base_pgdas_decimal := competencia.receita_monofasica_declarada.getD 0
    let diferenca_base := base_monofasica_xml - base_pgdas_decimal
    let (resultado, db1) := get_or_create_resultado_auditoria db empresa_id competencia
    let resultado2 := { resultado with
      base_monofasica_xml := base_monofasica_xml
      base_monofasica_pgdas := base_pgdas_decimal
      diferenca_base := diferenca_base }
    .ok (some resultado2, db1.replaceResultado resultado2)

/-! ## calculator.py -/

/-- `calculator.obter_anexo_aliquota_para_competencia`: first
`AnexoAliquota` row whose anexo equals the competência's anexo and whose
inclusive `[receita_bruta_min, receita_bruta_max]` range contains the
trailing-12-month revenue (null revenue treated as 0; a null anexo matches no
row, as SQL equality with NULL is never true). -/
def obter_anexo_aliquota_para_competencia (db : DB)
    (competencia : CompetenciaPGDAS) : Option AnexoAliquota :=
  let receita_12m : ℚ := competencia.receita_bruta_12m.getD 0
  db.anexos_aliquotas.find? fun a =>
    (match competencia.anexo with
     | none => false
     | some s => a.anexo == s) &&
    a.receita_bruta_min ≤ receita_12m && receita_12m ≤ a.receita_bruta_max

/-- `calculator.garantir_aliquota_efetiva`: return the memoized effective rate
untouched when present; otherwise resolve it — 0 when the trailing-12-month
revenue is 0, else `(receita_12m * aliquota_nominal - parcela_a_deduzir) /
receita_12m` — store it on the competência row and commit.  Returns the rate,
the (possibly updated) row, and the database. -/
def garantir_aliquota_efetiva (db : DB) (competencia : CompetenciaPGDAS) :
    ℚ × CompetenciaPGDAS × DB :=
  match competencia.aliquota_efetiva with
  | some v => (v, competencia, db)
  | none =>
    let receita_12m : ℚ := competencia.receita_bruta_12m.getD 0
    if receita_12m = 0 then
      let c2 := { competencia with aliquota_efetiva := some 0 }
      (0, c2, db.replaceCompetencia c2)
    else
      let aliquota_nominal := competencia.aliquota_nominal.getD 0
      let parcela_deduzir := competencia.parcela_a_deduzir.getD 0
      let aliquota_efetiva := (receita_12m * aliquota_nominal - parcela_deduzir) / receita_12m
      let c2 := { competencia with aliquota_efetiva := some aliquota_efetiva }
      (aliquota_efetiva, c2, db.replaceCompetencia c2)

/-- `calculator.calcular_indev_para_resultado`: estimate the improperly paid
PIS/COFINS for one audit summary; see the claims below for the branch
structure (difference ≤ 0 → zeros; no bracket → nulls; otherwise
`difference × effectiveRate × split` per contribution). -/
def calcular_indev_para_resultado (db : DB) (resultado : ResultadoAuditoria) :
    ResultadoAuditoria × DB :=
  match db.competencias.find? (fun c => c.id == resultado.competencia_id) with
  | none => (resultado, db)
  | some competencia =>
    let diferenca_base := resultado.diferenca_base
    if diferenca_base ≤ 0 then
      let r2 := { resultado with
        pis_indev := some 0, cofins_indev := some 0, total_indev := some 0 }
      (r2, db.replaceResultado r2)
    else
      let (aliquota_efetiva, c2, db1) := garantir_aliquota_efetiva db competencia
      match obter_anexo_aliquota_para_competencia db1 c2 with
      | none =>
        let r2 := { resultado with
          pis_indev := none, cofins_indev := none, total_indev := none }
        (r2, db1.replaceResultado r2)
      | some anexo_faixa =>
        let aliquota_pis_efetiva := aliquota_efetiva * anexo_faixa.percentual_pis
        let aliquota_cofins_efetiva := aliquota_efetiva * anexo_faixa.percentual_cofins
        let pis_indev := diferenca_base * aliquota_pis_efetiva
        let cofins_indev := diferenca_base * aliquota_cofins_efetiva
        let total_indev := pis_indev + cofins_indev
        let r2 := { resultado with
          pis_indev := some pis_indev
          cofins_indev := some cofins_indev
          total_indev := some total_indev }
        (r2, db1.replaceResultado r2)

/-- `calculator.calcular_indev_para_competencia`: locate the audit summary of
the empresa joined to the competência with this token and estimate its
impacts; `none` when there is no such summary. -/
def calcular_indev_para_competencia (db : DB) (empresa_id : Nat)
    (ano_mes : String) : Option ResultadoAuditoria × DB :=
  match db.resultados.find? (fun r =>
      r.empresa_id == empresa_id &&
        (db.competencias.find? (fun c =>
          c.id == r.competencia_id && c.ano_mes == ano_mes)).isSome) with
  | none => (none, db)
  | some resultado =>
    let (r2, db2) := calcular_indev_para_resultado db resultado
    (some r2, db2)

/-! ## pgdas_importer.py -/

/-- Power of two with an integer exponent, as a rational. -/
def pow2 (e : ℤ) : ℚ :=
  if 0 ≤ e then ((2 : ℚ) ^ e.toNat) else 1 / (2 : ℚ) ^ (-e).toNat

/-- Floor of the base-2 logarithm of a positive natural number, by structural
recursion on a fuel argument (`fuel = n` suffices since `n / 2 < n`). -/
def natLog2Aux : Nat → Nat → Nat
  | 0, _ => 0
  | fuel + 1, n => if 2 ≤ n then natLog2Aux fuel (n / 2) + 1 else 0

/-- Greatest `e` with `2 ^ e ≤ q`, for positive `q` (binary exponent).
From floor-log2 of numerator and denominator the exponent is one of two
candidates; the comparison picks the right one. -/
def ratLog2 (q : ℚ) : ℤ :=
  let a := q.num.toNat
  let b := q.den
  let k : ℤ := natLog2Aux a a
  let l : ℤ := natLog2Aux b b
  if pow2 (k - l) ≤ q then k - l else k - l - 1

/-- Round a rational to the nearest integer, ties to even. -/
def roundHalfEven (q : ℚ) : ℤ :=
  let n := ⌊q⌋
  let f := q - n
  if f < 1/2 then n
  else if 1/2 < f then n + 1
  else if n % 2 = 0 then n else n + 1

/-- The IEEE-754 binary64 value nearest to `q` (round to nearest, ties to
even), as an exact rational: the semantics of Python `float(...)` on the
magnitudes the importer handles (normal range; overflow and subnormals are
outside the model). -/
def roundB64 (q : ℚ) : ℚ :=
  if q = 0 then 0
  else
    let s : ℚ := if q < 0 then -1 else 1
    let a := s * q
    let e := ratLog2 a
    s * (roundHalfEven (a * pow2 (52 - e)) * pow2 (e - 52))

/-- Exact rational value of a plain decimal numeral (optional sign, integer
digits, optional fractional digits) — the text forms the PGDAS CSV carries.
`none` when the text is not such a numeral (Python `float()` raises). -/
def decTextToRat (l : List Char) : Option ℚ :=
  let (sign, body) :=
    match l with
    | '-' :: rest => ((-1 : ℚ), rest)
    | '+' :: rest => ((1 : ℚ), rest)
    | _ => ((1 : ℚ), l)
  match body.splitOn '.' with
  | [ip] =>
    if ip ≠ [] ∧ ip.all Char.isDigit then some (sign * natOfDigits ip) else none
  | [ip, fp] =>
    if (ip ≠ [] ∨ fp ≠ []) ∧ ip.all Char.isDigit ∧ fp.all Char.isDigit then
      some (sign * (natOfDigits ip + (natOfDigits fp : ℚ) / (10 : ℚ) ^ fp.length))
    else none
  | _ => none

/-- `pgdas_importer._parse_decimal` — the code's own numeric-field parser:
`None`/blank becomes `None`; otherwise the stripped text is converted with
Python `float(...)`, i.e. to the nearest BINARY floating-point (binary64)
value, not to an exact decimal.  A non-numeric text raises `ValueError`. -/
def parse_decimal (valor : Option String) : Except String (Option ℚ) :=
  match valor with
  | none => .ok none
  | some v =>
    let texto := pyStrip v
    if texto = "" then .ok none
    else
      match decTextToRat texto.data with
      | none => .error "could not convert string to float"
      | some q => .ok (some (roundB64 q))

/-- What the spec's numeric-semantics sentence prescribes for the same
parse: "all monetary and rate arithmetic must use exact fixed-point decimal
arithmetic (not binary floating point)" — the stripped text read as an EXACT
decimal value, with the same None/blank handling.  Used only to compare the
code's parser against the spec's words. -/
def parse_decimal_spec (valor : Option String) : Except String (Option ℚ) :=
  match valor with
  | none => .ok none
  | some v =>
    let texto := pyStrip v
    if texto = "" then .ok none
    else
      match decTextToRat texto.data with
      | none => .error "could not convert string to float"
      | some q => .ok (some q)

/-- A CSV row as the `csv.DictReader` delivers it: field name ↦ text. -/
abbrev Row := List (String × String)

def Row.get (row : Row) (k : String) : Option String :=
  (List.find? (fun p => p.1 == k) row).map (fun p => p.2)

/-- `x or y` on an optional rational (Python `or`: `None` and `0` are falsy). -/
def orQ (x : Option ℚ) (y : ℚ) : ℚ :=
  match x with
  | none => y
  | some v => if v = 0 then y else v

/-- `x or y` on an optional string (Python `or`: `None` and `""` are falsy). -/
def orS (x : Option String) (y : Option String) : Option String :=
  match x with
  | none => y
  | some s => if s = "" then y else some s

/-- `pgdas_importer.upsert_competencia_pgdas`: raises when the row has no
non-empty `ano_mes`; otherwise finds or creates the competência row of
(empresa, ano_mes) and overwrites its financial fields from the row ("or 0.0"
defaults on the three required revenue fields). -/
def upsert_competencia_pgdas (dados : Row) (db : DB) (empresa_id : Nat)
    (next_competencia_id : Nat) : Except String (DB × Nat) := do
  let ano_mes_opt := dados.get "ano_mes"
  match ano_mes_opt with
  | none => .error "Campo ano_mes e obrigatorio no CSV do PGDAS-D"
  | some ano_mes =>
    if ano_mes = "" then .error "Campo ano_mes e obrigatorio no CSV do PGDAS-D"
    else
      let (competencia, db, next_id) :=
        match db.competencias.find? (fun c =>
            c.empresa_id == empresa_id && c.ano_mes == ano_mes) with
        | some c => (c, db, next_competencia_id)
        | none =>
          let nova : CompetenciaPGDAS :=
            { id := next_competencia_id, empresa_id := empresa_id, ano_mes := ano_mes
              anexo := none, receita_bruta_total := none
              receita_monofasica_declarada := none
              receita_substituicao_tributaria := none, receita_outras_exclusoes := none
              receita_bruta_12m := none, aliquota_nominal := none
              parcela_a_deduzir := none, aliquota_efetiva := none }
          (nova, { db with competencias := db.competencias ++ [nova] },
            next_competencia_id + 1)
      let rbt ← parse_decimal (dados.get "receita_bruta_total")
      let rmd ← parse_decimal (dados.get "receita_monofasica_declarada")
      let rst ← parse_decimal (dados.get "receita_substituicao_tributaria")
      let roe ← parse_decimal (dados.get "receita_outras_exclusoes")
      let r12 ← parse_decimal (dados.get "receita_bruta_12m")
      let an ← parse_decimal (dados.get "aliquota_nominal")
      let pd ← parse_decimal (dados.get "parcela_a_deduzir")
      let ae ← parse_decimal (dados.get "aliquota_efetiva")
      let c2 := { competencia with
        anexo := orS (dados.get "anexo") competencia.anexo
        receita_bruta_total := some (orQ rbt 0)
        receita_monofasica_declarada := some (orQ rmd 0)
        receita_substituicao_tributaria := rst
        receita_outras_exclusoes := roe
        receita_bruta_12m := some (orQ r12 0)
        aliquota_nominal := an
        parcela_a_deduzir := pd
        aliquota_efetiva := ae }
      .ok (db.replaceCompetencia c2, next_id)

/-- `pgdas_importer.importar_pgdas_csv`: upsert every row, committing only
after the whole file was processed.  An exception raised by any row
propagates out of the loop, so the commit never runs: the caller's committed
state is the result only when every row succeeded (`.ok`); on `.error` the
caller's database is unchanged. -/
def importar_pgdas_csv (db : DB) (empresa_id : Nat) (rows : List Row) :
    Except String DB := do
  let next0 := (db.competencias.foldl (fun acc c => max acc c.id) 0) + 1
  let step : (DB × Nat) → Row → Except String (DB × Nat) := fun st linha =>
    upsert_competencia_pgdas linha st.1 empresa_id st.2
  let (db2, _) ← rows.foldlM step (db, next0)
  .ok db2

/-! ## routers/uploads.py -/

/-- `uploads._gerar_intervalo_competencias` loop body.  `strptime("%Y-%m")`
constrains months to 1..12 and the month stepping keeps them there, so the
recursion carries `mes ≤ 12` as part of its guard (a `datetime`'s month field
is within 1..12 by construction — on other inputs `datetime.replace` would
raise, a state the Python loop cannot reach). -/
def gerarLoopF : Nat → Nat → Nat → Nat → Nat → List String
  | 0, _, _, _, _ => []
  | fuel + 1, ano, mes, ano_fim, mes_fim =>
    if (ano < ano_fim ∨ (ano = ano_fim ∧ mes ≤ mes_fim)) ∧ mes ≤ 12 then
      formatAnoMes ano mes ::
        (if mes = 12 then gerarLoopF fuel (ano + 1) 1 ano_fim mes_fim
         else gerarLoopF fuel ano (mes + 1) ano_fim mes_fim)
    else []

/-- The fuel `(ano_fim + 1 - ano) * 13 + (mes_fim + 13) - mes` is the measure
that strictly decreases at every iteration of the Python `while` loop (each
step either bumps the month or rolls the year over), and it is positive
whenever the loop condition holds, so the fuel never runs out before the
condition turns false: `gerarLoopF` with this fuel is the loop itself. -/
def gerarLoop (ano mes ano_fim mes_fim : Nat) : List String :=
  gerarLoopF ((ano_fim + 1 - ano) * 13 + (mes_fim + 13) - mes) ano mes ano_fim mes_fim

/-- `uploads._gerar_intervalo_competencias`: the `"AAAA-MM"` tokens from the
initial to the final competência inclusive, month by month with year rollover;
raises (strptime) when a bound does not parse or has a month outside 1..12. -/
def gerar_intervalo_competencias (competencia_inicial competencia_final : String) :
    Except String (List String) := do
  match parseAnoMes competencia_inicial, parseAnoMes competencia_final with
  | some (a1, m1), some (a2, m2) =>
    if 1 ≤ m1 ∧ m1 ≤ 12 ∧ 1 ≤ m2 ∧ m2 ≤ 12 then
      .ok (gerarLoop a1 m1 a2 m2)
    else .error "competencia invalida"
  | _, _ => .error "competencia invalida"

/-- One iteration of the audit loop in `uploads.processar_auditoria`
(lines 120–123): classification pass, reconciliation, estimation. -/
def processarCompetencia (db : DB) (empresa_id : Nat) (ano_mes : String) :
    Except String DB := do
  let (db1, _) ← classificar_itens_empresa_competencia db empresa_id ano_mes
  let (_, db2) ← cruzar_competencia db1 empresa_id ano_mes
  let (_, db3) := calcular_indev_para_competencia db2 empresa_id ano_mes
  .ok db3

/-- The audit loop of `uploads.processar_auditoria` over a list of
competência tokens. -/
def processarCompetencias (db : DB) (empresa_id : Nat) :
    List String → Except String DB
  | [] => .ok db
  | comp :: rest => do
    let db1 ← processarCompetencia db empresa_id comp
    processarCompetencias db1 empresa_id rest

/-! ## Helper lemmas -/

/-- Mutual exclusion of the two classifier-owned flags. -/
def flagsExclusivos (i : ItemNota) : Prop :=
  ¬ (i.eh_monofasico = true ∧ i.eh_inconsistente = true)

instance (i : ItemNota) : Decidable (flagsExclusivos i) := by
  unfold flagsExclusivos; infer_instance

theorem ncm_vigencia_iff (db : DB) (n : String) (d : Date) :
    ncm_esta_em_vigencia db n d = true ↔
      ∃ reg ∈ db.ncm_monofasicos, reg.ncm = n ∧ reg.flag_monofasico = true ∧
        reg.data_inicio_vigencia.le d = true ∧
        (reg.data_fim_vigencia = none ∨
          ∃ f, reg.data_fim_vigencia = some f ∧ d.le f = true) := by
  unfold ncm_esta_em_vigencia
  rw [List.find?_isSome]
  constructor
  · rintro ⟨reg, hm, hp⟩
    refine ⟨reg, hm, ?_⟩
    simp only [Bool.and_eq_true, beq_iff_eq] at hp
    obtain ⟨⟨⟨h1, h2⟩, h3⟩, h4⟩ := hp
    refine ⟨h1, h2, h3, ?_⟩
    cases hf : reg.data_fim_vigencia with
    | none => exact Or.inl rfl
    | some f => rw [hf] at h4; exact Or.inr ⟨f, rfl, h4⟩
  · rintro ⟨reg, hm, h1, h2, h3, h4⟩
    refine ⟨reg, hm, ?_⟩
    simp only [Bool.and_eq_true, beq_iff_eq]
    refine ⟨⟨⟨h1, h2⟩, h3⟩, ?_⟩
    rcases h4 with h | ⟨f, hf, hle⟩
    · rw [h]
    · rw [hf]; exact hle

theorem classificar_item_flags (item : ItemNota) (b : Bool) :
    ((classificar_item item b).eh_monofasico = true ↔
      (b = true ∧ (pyStrip (item.cst_pis.getD "") = "04" ∨
                   pyStrip (item.cst_cofins.getD "") = "04"))) ∧
    ((classificar_item item b).eh_inconsistente = true ↔
      Xor' (b = true) (pyStrip (item.cst_pis.getD "") = "04" ∨
                       pyStrip (item.cst_cofins.getD "") = "04")) := by
  by_cases hp : (pyStrip (item.cst_pis.getD "") = "04" ∨
      pyStrip (item.cst_cofins.getD "") = "04") <;>
    cases b <;>
      simp [classificar_item, hp, Xor']

/-! ## C1 -/

/-- C1: for every line item and invoice date, classification marks the item
Exempt (`eh_monofasico`) iff an active catalog entry for the item's NCM has
validity-start ≤ date and validity-end null or ≥ date AND a trimmed
tax-situation code equals "04"; it marks the item Inconsistent
(`eh_inconsistente`) iff exactly one of the two indications holds; otherwise
both flags are false (the Ordinary outcome), so the flag pair is exactly the
one prescribed for the outcome, and absent codes (trimmed to something other
than "04", e.g. empty) count as non-matching. -/
theorem classificacao_item_segue_tabela_de_decisao (db : DB) (item : ItemNota) (d : Date) :
    ((classificar_item item (ncm_esta_em_vigencia db item.ncm d)).eh_monofasico = true ↔
      ((∃ reg ∈ db.ncm_monofasicos, reg.ncm = item.ncm ∧ reg.flag_monofasico = true ∧
          reg.data_inicio_vigencia.le d = true ∧
          (reg.data_fim_vigencia = none ∨
            ∃ f, reg.data_fim_vigencia = some f ∧ d.le f = true)) ∧
        (pyStrip (item.cst_pis.getD "") = "04" ∨
         pyStrip (item.cst_cofins.getD "") = "04"))) ∧
    ((classificar_item item (ncm_esta_em_vigencia db item.ncm d)).eh_inconsistente = true ↔
      Xor' (∃ reg ∈ db.ncm_monofasicos, reg.ncm = item.ncm ∧ reg.flag_monofasico = true ∧
          reg.data_inicio_vigencia.le d = true ∧
          (reg.data_fim_vigencia = none ∨
            ∃ f, reg.data_fim_vigencia = some f ∧ d.le f = true))
        (pyStrip (item.cst_pis.getD "") = "04" ∨
         pyStrip (item.cst_cofins.getD "") = "04")) := by
  have hiff := ncm_vigencia_iff db item.ncm d
  have hflags := classificar_item_flags item (ncm_esta_em_vigencia db item.ncm d)
  constructor
  · rw [hflags.1, ← hiff]
  · rw [hflags.2]
    unfold Xor'
    rw [← hiff]

/-! ## C5 -/

theorem get_or_create_preserva_itens (db : DB) (eid : Nat) (c : CompetenciaPGDAS) :
    (get_or_create_resultado_auditoria db eid c).2.itens = db.itens := by
  unfold get_or_create_resultado_auditoria
  cases db.resultados.find? (fun r => r.empresa_id == eid && r.competencia_id == c.id) <;> rfl

theorem cruzar_preserva_itens (db : DB) (eid : Nat) (am : String)
    (res : Option ResultadoAuditoria) (db2 : DB)
    (h : cruzar_competencia db eid am = .ok (res, db2)) : db2.itens = db.itens := by
  unfold cruzar_competencia at h
  cases hf : db.competencias.find? (fun c => c.empresa_id == eid && c.ano_mes == am) with
  | none => rw [hf] at h; cases h; rfl
  | some c =>
    rw [hf] at h
    unfold calcular_base_monofasica_xml at h
    cases hi : intervalo_datas_competencia am with
    | error e => rw [hi] at h; cases h
    | ok par =>
      rw [hi] at h
      simp only [bind, Except.bind] at h
      injection h with h2
      injection h2 with hres hdb
      rw [← hdb, DB.replaceResultado]
      exact get_or_create_preserva_itens db eid c

theorem garantir_preserva_itens (db : DB) (c : CompetenciaPGDAS) :
    (garantir_aliquota_efetiva db c).2.2.itens = db.itens := by
  unfold garantir_aliquota_efetiva
  cases c.aliquota_efetiva with
  | some v => rfl
  | none =>
    by_cases h : (c.receita_bruta_12m.getD 0 : ℚ) = 0 <;> simp [h, DB.replaceCompetencia]

theorem calcular_indev_resultado_preserva_itens (db : DB) (r : ResultadoAuditoria) :
    (calcular_indev_para_resultado db r).2.itens = db.itens := by
  unfold calcular_indev_para_resultado
  cases hf : db.competencias.find? (fun c => c.id == r.competencia_id) with
  | none => rfl
  | some c =>
    by_cases hd : r.diferenca_base ≤ 0
    · simp [hd, DB.replaceResultado]
    · simp only [hd, if_false]
      have hit := garantir_preserva_itens db c
      cases hg : obter_anexo_aliquota_para_competencia
          (garantir_aliquota_efetiva db c).2.2 (garantir_aliquota_efetiva db c).2.1 with
      | none => simp [hg, DB.replaceResultado, hit]
      | some fa => simp [hg, DB.replaceResultado, hit]

theorem calcular_indev_competencia_preserva_itens (db : DB) (eid : Nat) (am : String) :
    (calcular_indev_para_competencia db eid am).2.itens = db.itens := by
  unfold calcular_indev_para_competencia
  cases hf : db.resultados.find? (fun r => r.empresa_id == eid &&
      (db.competencias.find? (fun c => c.id == r.competencia_id && c.ano_mes == am)).isSome) with
  | none => rfl
  | some r => simpa using calcular_indev_resultado_preserva_itens db r

/-- C5: (1) the classifier never leaves an item with both flags true — at most
one of `eh_monofasico`/`eh_inconsistente` holds, both-false being the ordinary
state; (2) a whole classification pass preserves that invariant for every item
in the database; (3) and (4): the reconciliation and estimation stages do not
touch the item rows at all, so the two flags are mutated only by the
classifier. -/
theorem flags_mutuamente_exclusivas :
    (∀ (item : ItemNota) (b : Bool), flagsExclusivos (classificar_item item b)) ∧
    (∀ (db : DB) (eid : Nat) (am : String) (db2 : DB) (n : Nat),
      classificar_itens_empresa_competencia db eid am = .ok (db2, n) →
      (∀ i ∈ db.itens, flagsExclusivos i) → ∀ i ∈ db2.itens, flagsExclusivos i) ∧
    (∀ (db : DB) (eid : Nat) (am : String) (res : Option ResultadoAuditoria) (db2 : DB),
      cruzar_competencia db eid am = .ok (res, db2) → db2.itens = db.itens) ∧
    (∀ (db : DB) (eid : Nat) (am : String),
      (calcular_indev_para_competencia db eid am).2.itens = db.itens) := by
  refine ⟨?_, ?_, cruzar_preserva_itens, calcular_indev_competencia_preserva_itens⟩
  · intro item b
    unfold flagsExclusivos
    by_cases hp : (pyStrip (item.cst_pis.getD "") = "04" ∨
        pyStrip (item.cst_cofins.getD "") = "04") <;>
      cases b <;> simp [classificar_item, hp]
  · intro db eid am db2 n h hall i hi
    unfold classificar_itens_empresa_competencia at h
    cases hint : intervalo_datas_competencia am with
    | error e => rw [hint] at h; cases h
    | ok par =>
      rw [hint] at h
      simp only [bind, Except.bind] at h
      injection h with h2
      injection h2 with hdb2 hn
      rw [← hdb2] at hi
      simp only [List.mem_map] at hi
      obtain ⟨i0, hi0, hmap⟩ := hi
      cases hfind : (notasNaCompetencia db eid par.1 par.2).find? (fun nt => nt.id == i0.nota_id) with
      | none => rw [hfind] at hmap; rw [← hmap]; exact hall i0 hi0
      | some nota =>
        rw [hfind] at hmap
        rw [← hmap]
        unfold flagsExclusivos
        by_cases hp : (pyStrip (i0.cst_pis.getD "") = "04" ∨
            pyStrip (i0.cst_cofins.getD "") = "04") <;>
          cases hb : ncm_esta_em_vigencia db i0.ncm nota.data_emissao.date <;>
            simp [classificar_item, hp, hb]

/-- Witness for C5 at a concrete database: a freshly classified item, and the
single item of a database after a classification pass, both keep the two
flags mutually exclusive. -/
theorem flags_mutuamente_exclusivas_witness :
    flagsExclusivos (classificar_item ⟨1, 1, "2207", 100, some "04", some "04", false, false⟩ true) ∧
    flagsExclusivos (⟨1, 1, "2207", 100, some "04", some "04", true, false⟩ : ItemNota) := by
  constructor
  · exact flags_mutuamente_exclusivas.1 ⟨1, 1, "2207", 100, some "04", some "04", false, false⟩ true
  · have h := flags_mutuamente_exclusivas.2.1
      (⟨[], [], [⟨1, 1, "2207", 100, some "04", some "04", true, false⟩], [], [], [], 1⟩ : DB)
      1 "2024-01"
      (⟨[], [], [⟨1, 1, "2207", 100, some "04", some "04", true, false⟩], [], [], [], 1⟩ : DB)
      0 rfl (by decide)
    exact h ⟨1, 1, "2207", 100, some "04", some "04", true, false⟩ (by decide)

/-! ## C4 -/

/-- C4: when the audit summary's difference is ≤ 0 (and its competência link
resolves, as the non-null foreign key guarantees), the estimation stage
stores exactly zero — `some 0`, never `none` and never negative — in all
three impact fields, and returns without resolving rates or brackets: the
competência table (which rate memoization would touch) and the bracket table
are left exactly as they were. -/
theorem diferenca_nao_positiva_zera_impactos (db : DB) (r : ResultadoAuditoria)
    (c : CompetenciaPGDAS)
    (hc : db.competencias.find? (fun x => x.id == r.competencia_id) = some c)
    (hd : r.diferenca_base ≤ 0) :
    (calcular_indev_para_resultado db r).1.pis_indev = some 0 ∧
    (calcular_indev_para_resultado db r).1.cofins_indev = some 0 ∧
    (calcular_indev_para_resultado db r).1.total_indev = some 0 ∧
    (calcular_indev_para_resultado db r).2.competencias = db.competencias ∧
    (calcular_indev_para_resultado db r).2.anexos_aliquotas = db.anexos_aliquotas := by
  unfold calcular_indev_para_resultado
  rw [hc]
  simp [hd, DB.replaceResultado]

def compC4w : CompetenciaPGDAS :=
  ⟨10, 1, "2024-01", some "I", none, none, none, none, some 1000, some 6100, some 0, none⟩

def resC4w : ResultadoAuditoria := ⟨1, 1, 10, 700, 700, 0, none, none, none⟩

def dbC4w : DB := ⟨[], [], [], [compC4w], [], [resC4w], 2⟩

/-- Witness for C4: a summary with difference exactly 0 gets `some 0` in the
three impact fields and the rate/bracket tables stay untouched. -/
theorem diferenca_nao_positiva_zera_impactos_witness :
    resC4w.diferenca_base ≤ 0 ∧
    (calcular_indev_para_resultado dbC4w resC4w).1.pis_indev = some 0 ∧
    (calcular_indev_para_resultado dbC4w resC4w).1.cofins_indev = some 0 ∧
    (calcular_indev_para_resultado dbC4w resC4w).1.total_indev = some 0 ∧
    (calcular_indev_para_resultado dbC4w resC4w).2.competencias = dbC4w.competencias := by
  have h := diferenca_nao_positiva_zera_impactos dbC4w resC4w compC4w rfl (by decide)
  exact ⟨by decide, h.1, h.2.1, h.2.2.1, h.2.2.2.1⟩

/-! ## C7 -/

/-- C7: once a competência's effective rate is memoized (`aliquota_efetiva`
non-null), resolving it again returns exactly the stored value and performs no
recomputation and no state change — for EVERY value of the nominal rate,
deduction parcel and trailing-12-month revenue fields, i.e. even if those
inputs were mutated after the rate was first set. -/
theorem aliquota_efetiva_memoizada (db : DB) (c : CompetenciaPGDAS) (v : ℚ)
    (h : c.aliquota_efetiva = some v) :
    garantir_aliquota_efetiva db c = (v, c, db) := by
  unfold garantir_aliquota_efetiva
  rw [h]

def compC7w : CompetenciaPGDAS :=
  ⟨11, 1, "2024-02", some "I", none, none, none, none, some 500000, some 3, some 100000, some 7⟩

def dbC7w : DB := ⟨[], [], [], [compC7w], [], [], 1⟩

/-- Witness for C7: a competência whose memoized rate (7) disagrees with what
its current nominal-rate/deduction-parcel inputs would yield still resolves to
the stored 7, with the database unchanged. -/
theorem aliquota_efetiva_memoizada_witness :
    garantir_aliquota_efetiva dbC7w compC7w = (7, compC7w, dbC7w) :=
  aliquota_efetiva_memoizada dbC7w compC7w 7 rfl

/-! ## C8 (corrected) -/

def compC8w : CompetenciaPGDAS :=
  ⟨10, 1, "2024-01", some "I", none, none, none, none, none, none, none, none⟩

def dbC8w : DB := ⟨[], [], [], [compC8w], [], [], 1⟩

/-- C8 counterexample: on a database with no audit summary at all, the record
freshly created by lookup-or-create has its PIS impact field `none` (NULL),
not zero — so the claim that all monetary fields including the three impact
fields start at zero is false. -/
theorem novo_resultado_impactos_nao_comecam_em_zero :
    (get_or_create_resultado_auditoria dbC8w 1 compC8w).1.pis_indev = none ∧
    ¬ ((get_or_create_resultado_auditoria dbC8w 1 compC8w).1.pis_indev = some 0 ∧
       (get_or_create_resultado_auditoria dbC8w 1 compC8w).1.cofins_indev = some 0 ∧
       (get_or_create_resultado_auditoria dbC8w 1 compC8w).1.total_indev = some 0) := by
  constructor
  · rfl
  · intro h
    cases h.1

/-- C8 amended: when no summary exists for (empresa, competência), the created
record starts the two base fields and the difference at zero, and the three
impact fields at NULL (`none`) — unset until the estimation stage runs. -/
theorem novo_resultado_bases_zero_impactos_nulos (db : DB) (eid : Nat)
    (c : CompetenciaPGDAS)
    (h : db.resultados.find?
      (fun r => r.empresa_id == eid && r.competencia_id == c.id) = none) :
    (get_or_create_resultado_auditoria db eid c).1 =
      ⟨db.next_resultado_id, eid, c.id, 0, 0, 0, none, none, none⟩ ∧
    (get_or_create_resultado_auditoria db eid c).2.resultados =
      db.resultados ++ [⟨db.next_resultado_id, eid, c.id, 0, 0, 0, none, none, none⟩] := by
  unfold get_or_create_resultado_auditoria
  rw [h]
  exact ⟨rfl, rfl⟩

/-- Witness for the amended C8 at a concrete empty database. -/
theorem novo_resultado_bases_zero_impactos_nulos_witness :
    (get_or_create_resultado_auditoria dbC8w 2 compC8w).1 =
      ⟨1, 2, 10, 0, 0, 0, none, none, none⟩ :=
  (novo_resultado_bases_zero_impactos_nulos dbC8w 2 compC8w rfl).1

/-! ## Shared estimation-formula lemma -/

theorem calcular_indev_formula (db : DB) (r : ResultadoAuditoria)
    (c c2 : CompetenciaPGDAS) (ae : ℚ) (db1 : DB) (faixa : AnexoAliquota)
    (hc : db.competencias.find? (fun x => x.id == r.competencia_id) = some c)
    (hd : 0 < r.diferenca_base)
    (hg : garantir_aliquota_efetiva db c = (ae, c2, db1))
    (hf : obter_anexo_aliquota_para_competencia db1 c2 = some faixa) :
    (calcular_indev_para_resultado db r).1.pis_indev =
      some (r.diferenca_base * (ae * faixa.percentual_pis)) ∧
    (calcular_indev_para_resultado db r).1.cofins_indev =
      some (r.diferenca_base * (ae * faixa.percentual_cofins)) ∧
    (calcular_indev_para_resultado db r).1.total_indev =
      some (r.diferenca_base * (ae * faixa.percentual_pis) +
            r.diferenca_base * (ae * faixa.percentual_cofins)) := by
  unfold calcular_indev_para_resultado
  rw [hc]
  dsimp only
  rw [if_neg (not_le.mpr hd), hg]
  dsimp only
  rw [hf]
  exact ⟨rfl, rfl, rfl⟩

/-! ## C2 (corrected) -/

/-- C2 counterexample: the declaration importer's numeric parser
(`_parse_decimal`, which all monetary and rate fields of an ingested row pass
through) converts text with Python `float(...)` — BINARY floating point — so
on input "0.1" it does not produce the exact decimal value 1/10 the spec's
exact-fixed-point-decimal semantics prescribes: the code's parse and the
spec's parse disagree at this input, refuting "never binary floating point
… no rounding before the storage boundary". -/
theorem estimativa_decimal_exata_contraexemplo :
    parse_decimal (some "0.1") = .ok (some (roundB64 (1 / 10))) ∧
    parse_decimal_spec (some "0.1") = .ok (some (1 / 10)) ∧
    roundB64 (1 / 10) ≠ 1 / 10 ∧
    parse_decimal (some "0.1") ≠ parse_decimal_spec (some "0.1") := by
  have hdy : ∀ (n : ℤ) (e : ℤ), (n : ℚ) * pow2 e ≠ 1 / 10 := by
    intro n e h
    unfold pow2 at h
    by_cases he : 0 ≤ e
    · rw [if_pos he] at h
      have h10 : (10 : ℚ) * ((n : ℚ) * 2 ^ e.toNat) = 1 := by rw [h]; norm_num
      have hz : ((10 * n * 2 ^ e.toNat : ℤ) : ℚ) = ((1 : ℤ) : ℚ) := by push_cast; linarith
      have hint : (10 * n * 2 ^ e.toNat : ℤ) = 1 := Int.cast_injective hz
      have : (2 : ℤ) ∣ 1 := ⟨5 * n * 2 ^ e.toNat, by linarith⟩
      norm_num at this
    · rw [if_neg he] at h
      have hk : (0 : ℤ) < (2 : ℤ) ^ (-e).toNat := by positivity
      have hkq : ((2 : ℚ) ^ (-e).toNat) ≠ 0 := by positivity
      have h10 : (10 : ℚ) * (n : ℚ) = 2 ^ (-e).toNat := by
        field_simp at h
        linarith
      have hz : ((10 * n : ℤ) : ℚ) = (((2 : ℤ) ^ (-e).toNat : ℤ) : ℚ) := by push_cast; linarith
      have hint : (10 * n : ℤ) = 2 ^ (-e).toNat := Int.cast_injective hz
      have h5 : (5 : ℤ) ∣ 2 ^ (-e).toNat := ⟨2 * n, by linarith⟩
      have hp5 : Prime (5 : ℤ) := by norm_num
      have := hp5.dvd_of_dvd_pow h5
      norm_num at this
  have hne : roundB64 (1 / 10) ≠ 1 / 10 := by
    unfold roundB64
    rw [if_neg (by norm_num), if_neg (by norm_num)]
    dsimp only
    simp only [one_mul]
    intro h
    exact hdy (roundHalfEven (1 / 10 * pow2 (52 - ratLog2 (1 / 10))))
      (ratLog2 (1 / 10) - 52) h
  have hstrip : pyStrip "0.1" = "0.1" := by decide
  have hdec : decTextToRat "0.1".data = some (1 / 10) := by
    have h0 : decTextToRat "0.1".data =
        some ((1 : ℚ) * (((0 : ℕ) : ℚ) + ((1 : ℕ) : ℚ) / (10 : ℚ) ^ (1 : ℕ))) := rfl
    rw [h0]
    norm_num
  have h1 : parse_decimal (some "0.1") = .ok (some (roundB64 (1 / 10))) := by
    unfold parse_decimal
    dsimp only
    rw [hstrip, if_neg (by decide : ¬("0.1" : String) = ""), hdec]
  have h2 : parse_decimal_spec (some "0.1") = .ok (some (1 / 10)) := by
    unfold parse_decimal_spec
    dsimp only
    rw [hstrip, if_neg (by decide : ¬("0.1" : String) = ""), hdec]
  refine ⟨h1, h2, hne, ?_⟩
  rw [h1, h2]
  intro h
  injection h with h3
  injection h3 with h4
  exact hne h4

/-- C2 amended: inside the estimation stage the arithmetic on Decimal values
is exact (embedded as ℚ): with positive difference and a matching bracket the
persisted impacts are exactly `difference × effectiveRate × splitPercentage`
per contribution and the total is exactly their sum, with no rounding before
the storage boundary — scenario D (difference 300.00, rate 0.10, split
40%/60%) yields exactly 12.00 / 18.00 / 30.00.  (What the counterexample
forced out of the original claim: the pipeline is not free of binary floating
point — `_parse_decimal` converts ingested numeric text with `float`, so
values may reach this computation already carrying binary round-off.) -/
theorem estimativa_formula_decimal_exata (db : DB) (r : ResultadoAuditoria)
    (c c2 : CompetenciaPGDAS) (ae : ℚ) (db1 : DB) (faixa : AnexoAliquota)
    (hc : db.competencias.find? (fun x => x.id == r.competencia_id) = some c)
    (hd : 0 < r.diferenca_base)
    (hg : garantir_aliquota_efetiva db c = (ae, c2, db1))
    (hf : obter_anexo_aliquota_para_competencia db1 c2 = some faixa) :
    (calcular_indev_para_resultado db r).1.pis_indev =
      some (r.diferenca_base * (ae * faixa.percentual_pis)) ∧
    (calcular_indev_para_resultado db r).1.cofins_indev =
      some (r.diferenca_base * (ae * faixa.percentual_cofins)) ∧
    (calcular_indev_para_resultado db r).1.total_indev =
      some (r.diferenca_base * (ae * faixa.percentual_pis) +
            r.diferenca_base * (ae * faixa.percentual_cofins)) :=
  calcular_indev_formula db r c c2 ae db1 faixa hc hd hg hf

def compC2w : CompetenciaPGDAS :=
  ⟨10, 1, "2024-01", some "I", none, some 700, none, none, some 1000000, none, none,
    some (1 / 10)⟩

def faixaC2w : AnexoAliquota := ⟨1, "I", 1, 0, 10000000, 0, 0, 2 / 5, 3 / 5⟩

def resC2w : ResultadoAuditoria := ⟨1, 1, 10, 1000, 700, 300, none, none, none⟩

def dbC2w : DB := ⟨[], [], [], [compC2w], [faixaC2w], [resC2w], 2⟩

/-- Witness for the amended C2: scenario D — difference 300.00, effective rate
0.10, split 40%/60% — produces exactly PIS 12.00, COFINS 18.00, total 30.00. -/
theorem estimativa_formula_decimal_exata_witness :
    (calcular_indev_para_resultado dbC2w resC2w).1.pis_indev = some 12 ∧
    (calcular_indev_para_resultado dbC2w resC2w).1.cofins_indev = some 18 ∧
    (calcular_indev_para_resultado dbC2w resC2w).1.total_indev = some 30 := by
  have h := estimativa_formula_decimal_exata dbC2w resC2w compC2w compC2w (1 / 10) dbC2w
    faixaC2w rfl (by norm_num [resC2w]) rfl (by rfl)
  refine ⟨?_, ?_, ?_⟩
  · rw [h.1]; norm_num [resC2w, faixaC2w]
  · rw [h.2.1]; norm_num [resC2w, faixaC2w]
  · rw [h.2.2]; norm_num [resC2w, faixaC2w]

/-! ## C6 -/

/-- C6: (1) with no memoized rate and zero trailing-12-month revenue, rate
resolution memoizes and returns exactly zero, raising no error; (2) with
positive difference, when no bracket's inclusive [min, max] range contains the
trailing-12-month revenue (bracket lookup after rate resolution returns
`none`), the estimation stage stores NULL (`none`), not zero, in all three
impact fields. -/
theorem receita_zero_da_aliquota_zero_e_faixa_ausente_anula :
    (∀ (db : DB) (c : CompetenciaPGDAS), c.aliquota_efetiva = none →
      c.receita_bruta_12m.getD 0 = 0 →
      garantir_aliquota_efetiva db c =
        (0, { c with aliquota_efetiva := some 0 },
         db.replaceCompetencia { c with aliquota_efetiva := some 0 })) ∧
    (∀ (db : DB) (r : ResultadoAuditoria) (c : CompetenciaPGDAS),
      db.competencias.find? (fun x => x.id == r.competencia_id) = some c →
      0 < r.diferenca_base →
      obter_anexo_aliquota_para_competencia (garantir_aliquota_efetiva db c).2.2
        (garantir_aliquota_efetiva db c).2.1 = none →
      (calcular_indev_para_resultado db r).1.pis_indev = none ∧
      (calcular_indev_para_resultado db r).1.cofins_indev = none ∧
      (calcular_indev_para_resultado db r).1.total_indev = none) := by
  constructor
  · intro db c hnone hzero
    unfold garantir_aliquota_efetiva
    rw [hnone]
    dsimp only
    rw [if_pos hzero]
  · intro db r c hc hd hob
    unfold calcular_indev_para_resultado
    rw [hc]
    dsimp only
    rw [if_neg (not_le.mpr hd)]
    rw [show garantir_aliquota_efetiva db c =
      ((garantir_aliquota_efetiva db c).1, (garantir_aliquota_efetiva db c).2.1,
       (garantir_aliquota_efetiva db c).2.2) from rfl]
    dsimp only
    rw [hob]
    exact ⟨rfl, rfl, rfl⟩

def compC6w : CompetenciaPGDAS :=
  ⟨10, 1, "2024-01", some "I", none, some 0, none, none, some 0, some 3, some 100, none⟩

def resC6w : ResultadoAuditoria := ⟨1, 1, 10, 50, 0, 50, some 1, some 1, some 2⟩

def dbC6w : DB := ⟨[], [], [], [compC6w], [], [resC6w], 2⟩

/-- Witness for C6: trailing-12-month revenue 0 with no memoized rate resolves
(and memoizes) rate 0; with difference 50 > 0 and an empty bracket table the
lookup fails and the impact fields are set to NULL. -/
theorem receita_zero_da_aliquota_zero_e_faixa_ausente_anula_witness :
    garantir_aliquota_efetiva dbC6w compC6w =
      (0, { compC6w with aliquota_efetiva := some 0 },
       dbC6w.replaceCompetencia { compC6w with aliquota_efetiva := some 0 }) ∧
    (calcular_indev_para_resultado dbC6w resC6w).1.pis_indev = none ∧
    (calcular_indev_para_resultado dbC6w resC6w).1.cofins_indev = none ∧
    (calcular_indev_para_resultado dbC6w resC6w).1.total_indev = none := by
  have hg := receita_zero_da_aliquota_zero_e_faixa_ausente_anula.1 dbC6w compC6w rfl (by decide)
  have h2 := receita_zero_da_aliquota_zero_e_faixa_ausente_anula.2 dbC6w resC6w compC6w
    rfl (by decide) (by rw [hg]; rfl)
  exact ⟨hg, h2⟩

/-! ## C10 -/

/-- C10 (implicit): effective-rate derivation is not clamped at zero.  With no
memoized rate, positive trailing-12-month revenue and a deduction parcel
exceeding `revenue × nominal rate`, the resolved and memoized effective rate
is strictly negative; and if the summary's difference is positive and a
bracket with strictly positive split percentages matches, the persisted PIS,
COFINS and total impacts are all strictly negative — a positive difference
does not guarantee non-negative impacts. -/
theorem aliquota_efetiva_nao_eh_clampada_em_zero (db : DB) (r : ResultadoAuditoria)
    (c : CompetenciaPGDAS) (ae : ℚ) (faixa : AnexoAliquota)
    (hc : db.competencias.find? (fun x => x.id == r.competencia_id) = some c)
    (hd : 0 < r.diferenca_base)
    (hnone : c.aliquota_efetiva = none)
    (hr : 0 < c.receita_bruta_12m.getD 0)
    (hneg : c.receita_bruta_12m.getD 0 * c.aliquota_nominal.getD 0 <
      c.parcela_a_deduzir.getD 0)
    (hae : ae = (c.receita_bruta_12m.getD 0 * c.aliquota_nominal.getD 0 -
      c.parcela_a_deduzir.getD 0) / c.receita_bruta_12m.getD 0)
    (hf : obter_anexo_aliquota_para_competencia
      (db.replaceCompetencia { c with aliquota_efetiva := some ae })
      { c with aliquota_efetiva := some ae } = some faixa)
    (hpis : 0 < faixa.percentual_pis) (hcof : 0 < faixa.percentual_cofins) :
    garantir_aliquota_efetiva db c =
      (ae, { c with aliquota_efetiva := some ae },
       db.replaceCompetencia { c with aliquota_efetiva := some ae }) ∧
    ae < 0 ∧
    (calcular_indev_para_resultado db r).1.pis_indev =
      some (r.diferenca_base * (ae * faixa.percentual_pis)) ∧
    r.diferenca_base * (ae * faixa.percentual_pis) < 0 ∧
    (calcular_indev_para_resultado db r).1.cofins_indev =
      some (r.diferenca_base * (ae * faixa.percentual_cofins)) ∧
    r.diferenca_base * (ae * faixa.percentual_cofins) < 0 ∧
    (calcular_indev_para_resultado db r).1.total_indev =
      some (r.diferenca_base * (ae * faixa.percentual_pis) +
            r.diferenca_base * (ae * faixa.percentual_cofins)) ∧
    r.diferenca_base * (ae * faixa.percentual_pis) +
      r.diferenca_base * (ae * faixa.percentual_cofins) < 0 := by
  have hgar : garantir_aliquota_efetiva db c =
      (ae, { c with aliquota_efetiva := some ae },
       db.replaceCompetencia { c with aliquota_efetiva := some ae }) := by
    unfold garantir_aliquota_efetiva
    rw [hnone]
    dsimp only
    rw [if_neg hr.ne', hae]
  have haeneg : ae < 0 := by
    rw [hae]
    exact div_neg_of_neg_of_pos (sub_neg.mpr hneg) hr
  have hform := calcular_indev_formula db r c { c with aliquota_efetiva := some ae } ae
    (db.replaceCompetencia { c with aliquota_efetiva := some ae }) faixa hc hd hgar hf
  have hp : r.diferenca_base * (ae * faixa.percentual_pis) < 0 :=
    mul_neg_of_pos_of_neg hd (mul_neg_of_neg_of_pos haeneg hpis)
  have hcf : r.diferenca_base * (ae * faixa.percentual_cofins) < 0 :=
    mul_neg_of_pos_of_neg hd (mul_neg_of_neg_of_pos haeneg hcof)
  exact ⟨hgar, haeneg, hform.1, hp, hform.2.1, hcf, hform.2.2, by linarith⟩

def compC10w : CompetenciaPGDAS :=
  ⟨10, 1, "2024-01", some "I", none, some 0, none, none, some 100, some (1 / 20),
    some 10, none⟩

def faixaC10w : AnexoAliquota := ⟨1, "I", 1, 0, 1000000, 1 / 20, 10, 2 / 5, 3 / 5⟩

def resC10w : ResultadoAuditoria := ⟨1, 1, 10, 100, 0, 100, none, none, none⟩

def dbC10w : DB := ⟨[], [], [], [compC10w], [faixaC10w], [resC10w], 2⟩

/-- Witness for C10: revenue 100, nominal rate 0.05, deduction parcel 10 give
effective rate (100×0.05−10)/100 = −0.05 < 0; with difference 100 and split
40%/60% the persisted impacts are −2, −3 and −5, all negative. -/
theorem aliquota_efetiva_nao_eh_clampada_em_zero_witness :
    garantir_aliquota_efetiva dbC10w compC10w =
      (-(1 / 20), { compC10w with aliquota_efetiva := some (-(1 / 20)) },
       dbC10w.replaceCompetencia { compC10w with aliquota_efetiva := some (-(1 / 20)) }) ∧
    (-(1 / 20) : ℚ) < 0 ∧
    (calcular_indev_para_resultado dbC10w resC10w).1.pis_indev = some (-2) ∧
    (calcular_indev_para_resultado dbC10w resC10w).1.cofins_indev = some (-3) ∧
    (calcular_indev_para_resultado dbC10w resC10w).1.total_indev = some (-5) := by
  have h := aliquota_efetiva_nao_eh_clampada_em_zero dbC10w resC10w compC10w (-(1 / 20))
    faixaC10w rfl (by decide) rfl (by decide) (by norm_num [compC10w])
    (by norm_num [compC10w]) ?hf (by norm_num [faixaC10w]) (by norm_num [faixaC10w])
  case hf =>
    unfold obter_anexo_aliquota_para_competencia
    dsimp only [dbC10w, compC10w, faixaC10w, DB.replaceCompetencia]
    norm_num [List.find?]
  refine ⟨h.1, h.2.1, ?_, ?_, ?_⟩
  · rw [h.2.2.1]; norm_num [resC10w, faixaC10w]
  · rw [h.2.2.2.2.1]; norm_num [resC10w, faixaC10w]
  · rw [h.2.2.2.2.2.2.1]; norm_num [resC10w, faixaC10w]

/-! ## C9 (corrected) -/

/-- Is this import outcome the propagated exception? -/
def ehErro (x : Except String DB) : Bool :=
  match x with
  | .error _ => true
  | .ok _ => false

theorem upsert_sem_ano_mes_erro (row : Row) (db : DB) (eid nid : Nat)
    (h : row.get "ano_mes" = none ∨ row.get "ano_mes" = some "") :
    upsert_competencia_pgdas row db eid nid =
      .error "Campo ano_mes e obrigatorio no CSV do PGDAS-D" := by
  unfold upsert_competencia_pgdas
  rcases h with h | h
  · rw [h]
  · rw [h]
    dsimp only
    rw [if_pos rfl]

theorem foldl_upsert_erro (eid : Nat) (rows : List Row) :
    ∀ st : DB × Nat,
    (∃ row ∈ rows, row.get "ano_mes" = none ∨ row.get "ano_mes" = some "") →
    ∃ e, rows.foldlM
      (fun st linha => upsert_competencia_pgdas linha st.1 eid st.2) st = .error e := by
  induction rows with
  | nil =>
    intro st h
    simp at h
  | cons r rest ih =>
    intro st h
    rw [List.foldlM_cons]
    rcases h with ⟨row, hmem, hbad⟩
    rcases List.mem_cons.mp hmem with heq | hmem2
    · subst heq
      rw [upsert_sem_ano_mes_erro row st.1 eid st.2 hbad]
      exact ⟨"Campo ano_mes e obrigatorio no CSV do PGDAS-D", rfl⟩
    · cases hst : upsert_competencia_pgdas r st.1 eid st.2 with
      | error e => exact ⟨e, rfl⟩
      | ok st2 =>
        obtain ⟨e, he⟩ := ih st2 ⟨row, hmem2, hbad⟩
        refine ⟨e, ?_⟩
        simpa [bind, Except.bind] using he

/-- C9 amended: a row whose required period token `ano_mes` is missing (or
blank) raises, and the exception propagates out of the per-row loop, aborting
the ENTIRE file import — the file-level commit never runs, so no record of
that file (including valid rows before or after the bad one) is ingested;
the caller's already-committed state is simply kept (the function yields no
new database on error). -/
theorem importacao_linha_sem_ano_mes_aborta_arquivo (db : DB) (eid : Nat)
    (rows : List Row)
    (h : ∃ row ∈ rows, row.get "ano_mes" = none ∨ row.get "ano_mes" = some "") :
    ehErro (importar_pgdas_csv db eid rows) = true := by
  unfold importar_pgdas_csv
  obtain ⟨e, he⟩ := foldl_upsert_erro eid rows
    (db, (db.competencias.foldl (fun acc c => max acc c.id) 0) + 1) h
  dsimp only
  rw [he]
  rfl

def rowC9a : Row := [("ano_mes", "2024-01"), ("anexo", "I")]

def rowC9bad : Row := [("anexo", "I")]

def rowC9c : Row := [("ano_mes", "2024-02"), ("anexo", "I")]

def dbC9w : DB := ⟨[], [], [], [], [], [], 1⟩

/-- C9 counterexample: a three-row file whose middle row lacks `ano_mes`
makes the whole import evaluate to the raised `ValueError` — the two valid
rows are NOT ingested (no database state is produced at all, since the commit
at the end of the loop is never reached), contradicting "aborts that record
only: other records in the same file are still ingested". -/
theorem importacao_linha_sem_ano_mes_contraexemplo :
    importar_pgdas_csv dbC9w 1 [rowC9a, rowC9bad, rowC9c] =
      .error "Campo ano_mes e obrigatorio no CSV do PGDAS-D" := by
  rfl

/-- Witness for the amended C9 at the same concrete file. -/
theorem importacao_linha_sem_ano_mes_aborta_arquivo_witness :
    ehErro (importar_pgdas_csv dbC9w 1 [rowC9a, rowC9bad, rowC9c]) = true :=
  importacao_linha_sem_ano_mes_aborta_arquivo dbC9w 1 [rowC9a, rowC9bad, rowC9c]
    ⟨rowC9bad, by decide, Or.inl (by decide)⟩

/-! ## C3 -/

theorem gerarLoopF_fuel_suficiente : ∀ (f1 f2 a m a2 m2 : Nat),
    (a2 + 1 - a) * 13 + (m2 + 13) - m ≤ f1 →
    (a2 + 1 - a) * 13 + (m2 + 13) - m ≤ f2 →
    gerarLoopF f1 a m a2 m2 = gerarLoopF f2 a m a2 m2 := by
  intro f1
  induction f1 with
  | zero =>
    intro f2 a m a2 m2 h1 h2
    have hcond : ¬ ((a < a2 ∨ (a = a2 ∧ m ≤ m2)) ∧ m ≤ 12) := by omega
    cases f2 with
    | zero => rfl
    | succ f2 => rw [gerarLoopF, gerarLoopF, if_neg hcond]
  | succ f1 ih =>
    intro f2 a m a2 m2 h1 h2
    cases f2 with
    | zero =>
      have hcond : ¬ ((a < a2 ∨ (a = a2 ∧ m ≤ m2)) ∧ m ≤ 12) := by omega
      rw [gerarLoopF, gerarLoopF, if_neg hcond]
    | succ f2 =>
      rw [gerarLoopF, gerarLoopF]
      by_cases hcond : ((a < a2 ∨ (a = a2 ∧ m ≤ m2)) ∧ m ≤ 12)
      · rw [if_pos hcond, if_pos hcond]
        by_cases hm : m = 12
        · rw [if_pos hm, if_pos hm, ih f2 (a + 1) 1 a2 m2 (by omega) (by omega)]
        · rw [if_neg hm, if_neg hm, ih f2 a (m + 1) a2 m2 (by omega) (by omega)]
      · rw [if_neg hcond, if_neg hcond]

theorem natRevDigitsAux_digits : ∀ (fuel n : Nat), ∀ c ∈ natRevDigitsAux fuel n,
    c.isDigit = true := by
  intro fuel
  induction fuel with
  | zero => intro n c hc; simp [natRevDigitsAux] at hc
  | succ f ih =>
    intro n c hc
    rw [natRevDigitsAux] at hc
    by_cases hn : n = 0
    · simp [hn] at hc
    · rw [if_neg hn] at hc
      rcases List.mem_cons.mp hc with heq | hc2
      · subst heq
        have h10 : n % 10 < 10 := Nat.mod_lt _ (by omega)
        set k := n % 10 with hk
        interval_cases k <;> decide
      · exact ih (n / 10) c hc2

theorem isDigit_ne_dash (c : Char) (h : c.isDigit = true) : ¬ c = '-' := by
  intro he
  rw [he] at h
  exact absurd h (by decide)

theorem padNum_digits (w n : Nat) : ∀ c ∈ padNum w n, c.isDigit = true := by
  intro c hc
  unfold padNum at hc
  rcases List.mem_append.mp hc with h | h
  · rw [List.eq_of_mem_replicate h]; decide
  · exact natRevDigitsAux_digits n n c (List.mem_reverse.mp h)

theorem padNum_ne_nil (w n : Nat) (hw : 0 < w) : padNum w n ≠ [] := by
  unfold padNum
  intro h
  rcases List.append_eq_nil.mp h with ⟨h1, h2⟩
  rw [h2] at h1
  have hlen := congrArg List.length h1
  simp at hlen
  omega

theorem splitOnDash_sem_traco (l : List Char) (h : ∀ c ∈ l, ¬ c = '-') :
    splitOnDash l = [l] := by
  induction l with
  | nil => rfl
  | cons c rest ih =>
    rw [splitOnDash, if_neg (h c (List.mem_cons_self c rest))]
    rw [ih (fun x hx => h x (List.mem_cons_of_mem c hx))]

theorem splitOnDash_append (a b : List Char) (ha : ∀ c ∈ a, ¬ c = '-') :
    splitOnDash (a ++ '-' :: b) = a :: splitOnDash b := by
  induction a with
  | nil =>
    rw [List.nil_append, splitOnDash, if_pos rfl]
  | cons c rest ih =>
    rw [List.cons_append, splitOnDash,
      if_neg (ha c (List.mem_cons_self c rest)),
      ih (fun x hx => ha x (List.mem_cons_of_mem c hx))]

theorem parseAnoMes_formatAnoMes (y m : Nat) :
    (parseAnoMes (formatAnoMes y m)).isSome = true := by
  unfold parseAnoMes formatAnoMes
  have hdata : (String.mk (padNum 4 y ++ '-' :: padNum 2 m)).data =
      padNum 4 y ++ '-' :: padNum 2 m := rfl
  rw [hdata]
  rw [splitOnDash_append _ _ (fun c hc => isDigit_ne_dash c (padNum_digits 4 y c hc))]
  rw [splitOnDash_sem_traco _ (fun c hc => isDigit_ne_dash c (padNum_digits 2 m c hc))]
  dsimp only
  rw [if_pos ⟨padNum_ne_nil 4 y (by norm_num), padNum_ne_nil 2 m (by norm_num),
    List.all_eq_true.mpr (padNum_digits 4 y), List.all_eq_true.mpr (padNum_digits 2 m)⟩]
  rfl

theorem gerarLoopF_tokens_bem_formados : ∀ (fuel a m a2 m2 : Nat),
    ∀ t ∈ gerarLoopF fuel a m a2 m2, (parseAnoMes t).isSome = true := by
  intro fuel
  induction fuel with
  | zero => intro a m a2 m2 t ht; simp [gerarLoopF] at ht
  | succ f ih =>
    intro a m a2 m2 t ht
    rw [gerarLoopF] at ht
    by_cases hcond : ((a < a2 ∨ (a = a2 ∧ m ≤ m2)) ∧ m ≤ 12)
    · rw [if_pos hcond] at ht
      rcases List.mem_cons.mp ht with heq | ht2
      · subst heq; exact parseAnoMes_formatAnoMes a m
      · by_cases hm : m = 12
        · rw [if_pos hm] at ht2; exact ih (a + 1) 1 a2 m2 t ht2
        · rw [if_neg hm] at ht2; exact ih a (m + 1) a2 m2 t ht2
    · rw [if_neg hcond] at ht; simp at ht

theorem classificar_itens_ok (db : DB) (eid : Nat) (am : String)
    (h : (parseAnoMes am).isSome = true) :
    ∃ out, classificar_itens_empresa_competencia db eid am = .ok out := by
  unfold classificar_itens_empresa_competencia intervalo_datas_competencia
  obtain ⟨⟨y, mo⟩, hp⟩ := Option.isSome_iff_exists.mp h
  rw [hp]
  exact ⟨_, rfl⟩

theorem cruzar_ok (db : DB) (eid : Nat) (am : String)
    (h : (parseAnoMes am).isSome = true) :
    ∃ out, cruzar_competencia db eid am = .ok out := by
  unfold cruzar_competencia
  cases hf : db.competencias.find? (fun c => c.empresa_id == eid && c.ano_mes == am) with
  | none => exact ⟨(none, db), rfl⟩
  | some c =>
    unfold calcular_base_monofasica_xml intervalo_datas_competencia
    obtain ⟨⟨y, mo⟩, hp⟩ := Option.isSome_iff_exists.mp h
    rw [hp]
    exact ⟨_, rfl⟩

theorem processar_competencia_ok (db : DB) (eid : Nat) (am : String)
    (h : (parseAnoMes am).isSome = true) :
    ∃ db2, processarCompetencia db eid am = .ok db2 := by
  unfold processarCompetencia
  obtain ⟨o1, h1⟩ := classificar_itens_ok db eid am h
  rw [h1]
  obtain ⟨o2, h2⟩ := cruzar_ok o1.1 eid am h
  simp only [bind, Except.bind]
  rw [h2]
  exact ⟨_, rfl⟩

theorem processar_competencias_ok (eid : Nat) : ∀ (toks : List String) (db : DB),
    (∀ t ∈ toks, (parseAnoMes t).isSome = true) →
    ∃ db2, processarCompetencias db eid toks = .ok db2 := by
  intro toks
  induction toks with
  | nil => intro db h; exact ⟨db, rfl⟩
  | cons t rest ih =>
    intro db h
    obtain ⟨db1, h1⟩ := processar_competencia_ok db eid t (h t (List.mem_cons_self t rest))
    obtain ⟨db2, h2⟩ := ih db1 (fun x hx => h x (List.mem_cons_of_mem t hx))
    refine ⟨db2, ?_⟩
    rw [processarCompetencias]
    simp only [bind, Except.bind]
    rw [h1]
    dsimp only
    rw [h2]

/-- C3: (1) reconcile (`cruzar_competencia`) on an (empresa, período) with no
`CompetenciaPGDAS` row returns the NotFound sentinel `none` AND the returned
database is the input database unchanged — in particular no `ResultadoAuditoria`
is created or modified; (2) a multi-period run (the audit loop of
`processar_auditoria` over the tokens of `_gerar_intervalo_competencias`)
never raises, whatever periods are missing declarations: every period of the
range, including those after a missing one, is processed. -/
theorem competencia_ausente_retorna_notfound_e_nao_aborta :
    (∀ (db : DB) (eid : Nat) (am : String),
      db.competencias.find? (fun c => c.empresa_id == eid && c.ano_mes == am) = none →
      cruzar_competencia db eid am = .ok (none, db)) ∧
    (∀ (db : DB) (eid : Nat) (ci cf : String) (toks : List String),
      gerar_intervalo_competencias ci cf = .ok toks →
      ehErro (processarCompetencias db eid toks) = false) := by
  constructor
  · intro db eid am h
    unfold cruzar_competencia
    rw [h]
  · intro db eid ci cf toks hg
    unfold gerar_intervalo_competencias at hg
    cases hci : parseAnoMes ci with
    | none => rw [hci] at hg; cases hg
    | some p1 =>
      cases hcf : parseAnoMes cf with
      | none => rw [hci, hcf] at hg; cases hg
      | some p2 =>
        rw [hci, hcf] at hg
        obtain ⟨a1, m1⟩ := p1
        obtain ⟨a2, m2⟩ := p2
        dsimp only at hg
        by_cases hv : 1 ≤ m1 ∧ m1 ≤ 12 ∧ 1 ≤ m2 ∧ m2 ≤ 12
        · rw [if_pos hv] at hg
          injection hg with hg2
          obtain ⟨db2, h2⟩ := processar_competencias_ok eid toks db
            (fun t ht => gerarLoopF_tokens_bem_formados _ a1 m1 a2 m2 t
              (by rw [← gerarLoop, hg2]; exact ht))
          rw [h2]
          rfl
        · rw [if_neg hv] at hg; cases hg

def compC3wA : CompetenciaPGDAS :=
  ⟨21, 1, "2024-01", some "I", some 0, some 0, none, none, some 0, none, none, some 0⟩

def compC3wB : CompetenciaPGDAS :=
  ⟨22, 1, "2024-03", some "I", some 0, some 0, none, none, some 0, none, none, some 0⟩

def dbC3w : DB := ⟨[], [], [], [compC3wA, compC3wB], [], [], 1⟩

/-- Witness for C3: with declarations only for 2024-01 and 2024-03, reconcile
of 2024-02 yields the NotFound sentinel with the database untouched, and the
three-period run over ["2024-01", "2024-02", "2024-03"] does not abort. -/
theorem competencia_ausente_retorna_notfound_e_nao_aborta_witness :
    cruzar_competencia dbC3w 1 "2024-02" = .ok (none, dbC3w) ∧
    ehErro (processarCompetencias dbC3w 1 ["2024-01", "2024-02", "2024-03"]) = false := by
  constructor
  · exact competencia_ausente_retorna_notfound_e_nao_aborta.1 dbC3w 1 "2024-02" rfl
  · exact competencia_ausente_retorna_notfound_e_nao_aborta.2 dbC3w 1
      "2024-01" "2024-03" ["2024-01", "2024-02", "2024-03"] rfl
